import Mathlib

/-!
Verification development for the Big Picture Book Library catalog service
(`big_picture_book_library/app/views.py`).

The Python code is shallowly embedded:

* JSON values (the payloads of the external Open Library API, the error
  dictionaries built by the views, and the rows of the catalog store) are
  modelled by the inductive type `Json`.  Python dictionaries are association
  lists with string keys; `dict.get` is `Json.getKey`, membership
  (`key in d`) is `(d.getKey k).isSome`, and truthiness of a value
  (`not d[key]`) is `Json.truthy`.
* An HTTP response from `requests.get` is a status code together with an
  optional parsed JSON body; `body = none` models a body on which
  `response.json()` raises a JSON decode error.
* Fallible Python code (expressions that can raise) is embedded as
  `Option`-valued functions where `none` means the exception escapes.
* Regular-expression character class `\d` is modelled as an ASCII digit and
  `\s` as an ASCII whitespace character, matching the inputs the service
  actually handles.
-/

/-- Values of parsed JSON documents, also used for the Python dictionaries the
views construct.  Objects are association lists of string keys. -/
inductive Json where
  | null : Json
  | bool : Bool → Json
  | num : Int → Json
  | str : String → Json
  | arr : List Json → Json
  | obj : List (String × Json) → Json

/-- First-match lookup in an association list of JSON object fields. -/
def lookupField : List (String × Json) → String → Option Json
  | [], _ => none
  | (k, v) :: rest, key => if k = key then some v else lookupField rest key

/-- Python `d.get(key)` on a dictionary: `none` when the key is absent
(or the value is not an object at all). -/
def Json.getKey : Json → String → Option Json
  | .obj fields, key => lookupField fields key
  | _, _ => none

/-- Python `d.get(key, default)`. -/
def Json.getKeyD (j : Json) (key : String) (default : Json) : Json :=
  (j.getKey key).getD default

/-- Replace the value of `key`, or append the binding when absent:
Python dictionary assignment `d[key] = v`. -/
def setField : List (String × Json) → String → Json → List (String × Json)
  | [], key, v => [(key, v)]
  | (k, w) :: rest, key, v =>
    if k = key then (key, v) :: rest else (k, w) :: setField rest key v

/-- Python dictionary assignment `d[key] = v` (identity on non-objects,
which the views never reach). -/
def Json.setKey : Json → String → Json → Json
  | .obj fields, key, v => .obj (setField fields key v)
  | j, _, _ => j

/-- Python truthiness of a JSON value: `None`, `False`, `0`, the empty
string, the empty list and the empty dictionary are falsy. -/
def Json.truthy : Json → Bool
  | .null => false
  | .bool b => b
  | .num n => n ≠ 0
  | .str s => s.data ≠ []
  | .arr xs => !xs.isEmpty
  | .obj fields => !fields.isEmpty

/-- Python `isinstance(j, dict)`. -/
def Json.isObj : Json → Bool
  | .obj _ => true
  | _ => false

/-- Python `isinstance(j, list)`. -/
def Json.isArr : Json → Bool
  | .arr _ => true
  | _ => false

/-- A response of the external bibliographic API as seen by `requests`:
the HTTP status code, and the parsed JSON body.  `body = none` models a
payload that is not valid JSON, on which `response.json()` raises. -/
structure HttpResponse where
  status_code : Nat
  body : Option Json

/-- Characters removed by the `re.sub` hyphen-and-whitespace strip in
`validate_isbn`: hyphens and (ASCII) whitespace. -/
def is_stripped_char (c : Char) : Bool :=
  c = '-' || c = ' ' || c = '\t' || c = '\n' || c = '\r' ||
    c = Char.ofNat 11 || c = Char.ofNat 12

/-- The cleaned ISBN: the hyphen-and-whitespace `re.sub` strip in `validate_isbn`. -/
def clean_isbn (isbn : String) : String :=
  ⟨isbn.data.filter (fun c => !is_stripped_char c)⟩

/-- Numeric value of a digit character, Python `int(digit)` (only applied
behind the digit regex guard). -/
def digitVal (c : Char) : Nat := c.toNat - 48

/-- The expected ISBN-10 check character:
the character X when the remainder is 10, else the digit character. -/
def isbn10_check_char (r : Nat) : Char :=
  if r = 10 then 'X' else Char.ofNat (48 + r)

/-- Embedding of `validate_isbn10` (views.py lines 87-94): the regex
`^\d{9}[\dXx]$`, the position-weighted checksum of the first nine digits
modulo 11, and the case-insensitive comparison with the last character. -/
def validate_isbn10 (isbn : String) : Bool :=
  match isbn.data with
  | [d1, d2, d3, d4, d5, d6, d7, d8, d9, c10] =>
    (d1.isDigit && d2.isDigit && d3.isDigit && d4.isDigit && d5.isDigit &&
       d6.isDigit && d7.isDigit && d8.isDigit && d9.isDigit &&
       (c10.isDigit || c10 = 'X' || c10 = 'x')) &&
    (let checksum :=
      (([d1, d2, d3, d4, d5, d6, d7, d8, d9].enum.map
        (fun p => digitVal p.2 * (p.1 + 1))).sum) % 11
     isbn10_check_char checksum == c10.toUpper)
  | _ => false

/-- Embedding of `validate_isbn13` (views.py lines 97-105): the regex
`^\d{13}$`, the 1/3-alternating checksum of the first twelve digits modulo
10, and the comparison of `(10 - checksum) % 10` with the last digit. -/
def validate_isbn13 (isbn : String) : Bool :=
  match isbn.data with
  | [d1, d2, d3, d4, d5, d6, d7, d8, d9, d10, d11, d12, d13] =>
    (d1.isDigit && d2.isDigit && d3.isDigit && d4.isDigit && d5.isDigit &&
       d6.isDigit && d7.isDigit && d8.isDigit && d9.isDigit && d10.isDigit &&
       d11.isDigit && d12.isDigit && d13.isDigit) &&
    (let checksum :=
      (([d1, d2, d3, d4, d5, d6, d7, d8, d9, d10, d11, d12].enum.map
        (fun p => digitVal p.2 * (if p.1 % 2 = 0 then 1 else 3))).sum) % 10
     (10 - checksum) % 10 == digitVal d13)
  | _ => false

/-- Embedding of `validate_isbn` (views.py lines 61-84): strip hyphens and
whitespace, then dispatch on the cleaned length. -/
def validate_isbn (isbn : String) : Bool :=
  let cleaned_isbn := clean_isbn isbn
  if cleaned_isbn.length = 10 then validate_isbn10 cleaned_isbn
  else if cleaned_isbn.length = 13 then validate_isbn13 cleaned_isbn
  else false

example : validate_isbn "0306406152" = true := by decide
example : validate_isbn "0306406153" = false := by decide
example : validate_isbn "9780306406157" = true := by decide
example : validate_isbn "0-306-40615-2" = true := by decide

/-- The error explanation string shared by every server-side diagnostic. -/
def no_data_explanation : String :=
  "There is no data available for this request from Open Library APIs server."

/-- The level-1 diagnostic of `validate_response`: non-200 HTTP status. -/
def level1_error (status : Nat) (isbn api_url : String) : Json :=
  .obj [("error", .str "Error from server side."),
        ("error_explanation", .str no_data_explanation),
        ("level_of_error", .num 1),
        ("status_code", .num (Int.ofNat status)),
        ("issue_with_isbn", .str isbn),
        ("api_url", .str api_url)]

/-- The level-2 diagnostic of `validate_response`: body is not an object. -/
def level2_error (isbn api_url : String) : Json :=
  .obj [("error", .str "Error from server side."),
        ("error_explanation", .str no_data_explanation),
        ("error_details", .str "We did not receive expected output for this request."),
        ("level_of_error", .num 2),
        ("issue_with_isbn", .str isbn),
        ("api_url", .str api_url)]

/-- The level-3 diagnostic of `validate_response`: reading the key docs with
`response_data.get` returned `None`. -/
def level3_error (isbn api_url : String) : Json :=
  .obj [("error", .str "Error from server side."),
        ("error_explanation", .str no_data_explanation),
        ("error_details", .str "There is no \x27docs\x27 object in response."),
        ("level_of_error", .num 3),
        ("issue_with_isbn", .str isbn),
        ("api_url", .str api_url)]

/-- The level-4 diagnostic of `validate_response`: `docs` is not a list. -/
def level4_error (isbn api_url : String) : Json :=
  .obj [("error", .str "Error from server side."),
        ("error_explanation", .str no_data_explanation),
        ("error_details", .str "The type of \x27docs\x27 object is not a list."),
        ("level_of_error", .num 4),
        ("issue_with_isbn", .str isbn),
        ("api_url", .str api_url)]

/-- The level-5 diagnostic of `validate_response`: `docs` is empty. -/
def level5_error (isbn api_url : String) : Json :=
  .obj [("error", .str "Error from server side."),
        ("error_explanation", .str no_data_explanation),
        ("error_details", .str "The list in \x27docs\x27 object does not have a minimum of 1 book data. There is no data available for this ISBN number."),
        ("level_of_error", .num 5),
        ("issue_with_isbn", .str isbn),
        ("api_url", .str api_url)]

/-- The level-6 diagnostic of `validate_response`: the first element of
`docs` is not a dictionary. -/
def level6_error (isbn api_url : String) : Json :=
  .obj [("error", .str "Error from server side."),
        ("error_explanation", .str no_data_explanation),
        ("error_details", .str "The type of object in the list is not a dictionary. Hence, we cannot parse the data."),
        ("level_of_error", .num 6),
        ("issue_with_isbn", .str isbn),
        ("api_url", .str api_url)]

/-- The level-7 diagnostic of `validate_response`: a required key of the
first book is missing or has a falsy value. -/
def level7_error (key isbn api_url : String) : Json :=
  .obj [("error", .str "Error from server side."),
        ("error_explanation", .str no_data_explanation),
        ("error_details", .str ("The key \x27" ++ key ++ "\x27 is either not present or has an empty value.")),
        ("level_of_error", .num 7),
        ("issue_with_isbn", .str isbn),
        ("api_url", .str api_url)]

/-- The list `keys_expected` of views.py line 218. -/
def keys_expected : List String := ["title", "author_name", "publisher", "language"]

/-- The check of the level-7 loop for one key:
`key not in first_book or not first_book[key]`. -/
def key_missing_or_falsy (first_book : Json) (key : String) : Bool :=
  match first_book.getKey key with
  | none => true
  | some v => !v.truthy

/-- The first key of `keys` that is missing from `first_book` or has a falsy
value — the key whose check aborts the `for key in keys_expected` loop. -/
def first_missing_key (first_book : Json) : List String → Option String
  | [] => none
  | key :: rest =>
    if key_missing_or_falsy first_book key then some key
    else first_missing_key first_book rest

/-- Embedding of `validate_response` (views.py lines 126-233).  The result is
the Python dictionary the function returns: one of the seven diagnostic
dictionaries, or the first element of `docs` when every check passes.
`none` models the `requests.exceptions.JSONDecodeError` that
`response.json()` raises on a 200 response whose body is not valid JSON —
the function body has no handler for it, so the exception escapes. -/
def validate_response (response : HttpResponse) (isbn api_url : String) : Option Json :=
  if response.status_code ≠ 200 then
    some (level1_error response.status_code isbn api_url)
  else
    match response.body with
    | none => none
    | some response_data =>
      if !response_data.isObj then some (level2_error isbn api_url)
      else
        match response_data.getKey "docs" with
        | none => some (level3_error isbn api_url)
        | some .null => some (level3_error isbn api_url)
        | some (.arr []) => some (level5_error isbn api_url)
        | some (.arr (first_book :: _)) =>
          if !first_book.isObj then some (level6_error isbn api_url)
          else
            match first_missing_key first_book keys_expected with
            | some key => some (level7_error key isbn api_url)
            | none => some first_book
        | some _ => some (level4_error isbn api_url)

/-- Embedding of `cover_image_url` (views.py lines 108-123). -/
def cover_image_url (isbn_number : String) : String :=
  "https://covers.openlibrary.org/b/isbn/" ++ isbn_number ++ "-L.jpg"

/-- The search URL built at views.py line 281. -/
def api_url_for (isbn : String) : String :=
  "https://openlibrary.org/search.json?isbn=" ++ isbn

/-- Python subscription `v[0]` as applied in `fetch_book_data`: the head of a
list, the first character of a non-empty string (as a one-character string),
and an escaping `TypeError`, `IndexError` or `KeyError` (`none`) on anything
else. -/
def pyIndex0 : Json → Option Json
  | .arr (x :: _) => some x
  | .str s =>
    match s.data with
    | c :: _ => some (.str ⟨[c]⟩)
    | [] => none
  | _ => none

/-- The record-building tail of `fetch_book_data` (views.py lines 288-302):
coalesce the four descriptive fields from the first book and assemble the
updated book dictionary.  `none` models an exception escaping from one of
the `[0]` subscriptions. -/
def build_book_data (first_book : Json) (isbn : String) : Option Json :=
  let title := first_book.getKeyD "title" (.str "Title not available")
  match pyIndex0 (first_book.getKeyD "author_name" (.arr [.str "Author not available"])),
        pyIndex0 (first_book.getKeyD "publisher" (.arr [.str "Publisher not available"])),
        pyIndex0 (first_book.getKeyD "language" (.arr [.str "Language not available"])) with
  | some author_name, some publisher, some language =>
    some (.obj [("title", title),
                ("author", author_name),
                ("isbn", .str isbn),
                ("cover_page_url", .str (cover_image_url isbn)),
                ("language", language),
                ("publisher", publisher)])
  | _, _, _ => none

/-- Embedding of `fetch_book_data` (views.py lines 262-302).  The one
outbound HTTP request is abstracted as the function `lookup` from the
request URL to the raw response.  `none` models an exception escaping
(from `response.json()` or from a `[0]` subscription). -/
def fetch_book_data (lookup : String → HttpResponse) (isbn : String) : Option Json :=
  let api_url := api_url_for isbn
  let response := lookup api_url
  match validate_response response isbn api_url with
  | none => none
  | some first_book =>
    if (first_book.getKey "error").isSome then some first_book
    else build_book_data first_book isbn

example :
    validate_response ⟨200, some (.obj [("docs", .arr [])])⟩ "i" "u" =
      some (level5_error "i" "u") := by rfl
example :
    (validate_response ⟨200, some (.obj [("docs", .arr [.obj [("title", .str "T"),
        ("author_name", .arr [.str "A"]), ("publisher", .arr [.str "P"])]])])⟩ "i" "u").bind
      (fun d => d.getKey "level_of_error") = some (.num 7) := by rfl

/-- Embedding of `isbn_invalidation_error_response` (views.py lines 236-259). -/
def isbn_invalidation_error_response (isbn type_of_request : String) : Json :=
  .obj [("error", .str "Error from client side."),
        ("error_explanation", .str no_data_explanation),
        ("error_details", .str "The ISBN is incorrect. Please provide the correct ISBN."),
        ("level_of_error", .num 0),
        ("issue_with_isbn", .str isbn),
        ("type_of_request", .str type_of_request)]

/-- Validity of one required `CharField` of the `Book` model under
`BookSerializer`: present, a string, non-blank, and within `max_length`. -/
def charFieldOk (d : Json) (key : String) (maxLen : Nat) : Bool :=
  match d.getKey key with
  | some (.str s) => !s.isEmpty && s.data.length ≤ maxLen
  | _ => false

/-- Model of `BookSerializer(data=d).is_valid()` for the Django `Book` model
(models.py): the required character fields `title`, `author`, `isbn` and
`publisher` must be present as non-blank strings within their `max_length`
(255, 255, 13, 255); `cover_page_url` and `language` are optional
(`blank=True, null=True`).  Extra keys in `d` are ignored, as Django REST
framework ignores them. -/
def serializer_is_valid (d : Json) : Bool :=
  charFieldOk d "title" 255 && charFieldOk d "author" 255 &&
    charFieldOk d "isbn" 13 && charFieldOk d "publisher" 255

/-- An HTTP response produced by a view: status code and body. -/
structure ViewResponse where
  status : Nat
  body : Json

/-- Result of running `ISBNDetailView.get`: the response (`none` when an
exception escapes the view body, as with `is_valid(raise_exception=True)`
on invalid data or an unhandled error inside `fetch_book_data`), and the
number of outbound HTTP requests that were issued. -/
structure GetRunResult where
  outcome : Option ViewResponse
  externalCalls : Nat

/-- Embedding of `ISBNDetailView.get` (views.py lines 339-369). -/
def ISBNDetailView_get (lookup : String → HttpResponse) (isbn : String) : GetRunResult :=
  if !validate_isbn isbn then
    { outcome := some ⟨400, isbn_invalidation_error_response isbn "get"⟩,
      externalCalls := 0 }
  else
    match fetch_book_data lookup isbn with
    | none => { outcome := none, externalCalls := 1 }
    | some updated_book_data =>
      if (updated_book_data.getKey "error").isSome then
        { outcome := some ⟨500,
            (updated_book_data.setKey "type_of_request" (.str "get")).setKey
              "type_of_error" (.str "internal_server_error")⟩,
          externalCalls := 1 }
      else if serializer_is_valid updated_book_data then
        { outcome := some ⟨200, updated_book_data⟩, externalCalls := 1 }
      else
        { outcome := none, externalCalls := 1 }

/-- Result of running `BookListView.post` or `add_book_to_library`: the
response (`none` when an exception escapes), the number of outbound HTTP
requests, and the catalog store after the call.  The store is the sequence
of saved book dictionaries in insertion order (primary keys ascend along
the list). -/
structure PostRunResult where
  outcome : Option ViewResponse
  externalCalls : Nat
  store : List Json

/-- The 201 response body of `BookListView.post` (views.py lines 478-483).
The two subscriptions are guarded by serializer validity, which requires
both keys to be present. -/
def post_created_body (d : Json) : Json :=
  .obj [("status", .str "201 OK"),
        ("book_added_to_databases", .bool true),
        ("title", d.getKeyD "title" .null),
        ("isbn", d.getKeyD "isbn" .null)]

/-- Embedding of `BookListView.post` (views.py lines 450-485). -/
def BookListView_post (lookup : String → HttpResponse) (store : List Json)
    (isbn : String) : PostRunResult :=
  if !validate_isbn isbn then
    { outcome := some ⟨400, isbn_invalidation_error_response isbn "post"⟩,
      externalCalls := 0, store := store }
  else
    match fetch_book_data lookup isbn with
    | none => { outcome := none, externalCalls := 1, store := store }
    | some updated_book_data =>
      if (updated_book_data.getKey "error").isSome then
        { outcome := some ⟨500,
            .obj [("internal_server_error", updated_book_data),
                  ("type_of_request", .str "post")]⟩,
          externalCalls := 1, store := store }
      else if serializer_is_valid updated_book_data then
        { outcome := some ⟨201, post_created_body updated_book_data⟩,
          externalCalls := 1, store := store ++ [updated_book_data] }
      else
        { outcome := none, externalCalls := 1, store := store }

/-- Embedding of `BookListView.get` (views.py lines 427-436):
`Book.objects.all()` carries no ordering clause, so the rows come back in
table order — primary keys ascending, i.e. insertion order, oldest first. -/
def BookListView_get (store : List Json) : ViewResponse :=
  ⟨200, .arr store⟩

/-- The book list rendered by the `index` view (views.py line 502):
`Book.objects.all().order_by` on descending primary key, most recently
inserted first. -/
def index_book_list (store : List Json) : List Json :=
  store.reverse

/-- Embedding of `add_book_to_library` (views.py lines 515-548), for a POST
request whose session context carries `isbn_number`.  Unlike
`BookListView.post`, this view hands the result of `fetch_book_data` to the
serializer without first testing for an `error` key; the invalid-serializer
branch renders the 500 failure body. -/
def add_book_to_library (lookup : String → HttpResponse) (store : List Json)
    (isbn_number : String) : PostRunResult :=
  if !validate_isbn isbn_number then
    { outcome := some ⟨400, isbn_invalidation_error_response isbn_number "post"⟩,
      externalCalls := 0, store := store }
  else
    match fetch_book_data lookup isbn_number with
    | none => { outcome := none, externalCalls := 1, store := store }
    | some updated_book_data =>
      if serializer_is_valid updated_book_data then
        { outcome := some ⟨200, updated_book_data⟩, externalCalls := 1,
          store := store ++ [updated_book_data] }
      else
        { outcome := some ⟨500, .obj [("error", .str "Failed to save book to the library.")]⟩,
          externalCalls := 1, store := store }

/-- The position of a character in the stripped input, claim side. -/
def nthChar (s : String) (i : Nat) : Char := s.data.getD i ' '

/-- The ISBN-10 acceptance property as the specification words it: nine
digits followed by a digit or the letter X or x, and the weighted sum of
the first nine digits, each multiplied by its 1-based position, reduced
modulo 11, yields a check character equal to the tenth character compared
case-insensitively. -/
def ISBN10Spec (s : String) : Prop :=
  ((nthChar s 0).isDigit = true ∧ (nthChar s 1).isDigit = true ∧
    (nthChar s 2).isDigit = true ∧ (nthChar s 3).isDigit = true ∧
    (nthChar s 4).isDigit = true ∧ (nthChar s 5).isDigit = true ∧
    (nthChar s 6).isDigit = true ∧ (nthChar s 7).isDigit = true ∧
    (nthChar s 8).isDigit = true) ∧
  ((nthChar s 9).isDigit = true ∨ nthChar s 9 = 'X' ∨ nthChar s 9 = 'x') ∧
  isbn10_check_char
      ((digitVal (nthChar s 0) * 1 + digitVal (nthChar s 1) * 2 +
        digitVal (nthChar s 2) * 3 + digitVal (nthChar s 3) * 4 +
        digitVal (nthChar s 4) * 5 + digitVal (nthChar s 5) * 6 +
        digitVal (nthChar s 6) * 7 + digitVal (nthChar s 7) * 8 +
        digitVal (nthChar s 8) * 9) % 11) =
    (nthChar s 9).toUpper

theorem validate_isbn10_iff (s : String) (h : s.data.length = 10) :
    validate_isbn10 s = true ↔ ISBN10Spec s := by
  obtain ⟨l⟩ := s
  simp only [String.data] at h ⊢
  rcases l with _ | ⟨a1, l⟩
  · simp at h
  rcases l with _ | ⟨a2, l⟩
  · simp at h
  rcases l with _ | ⟨a3, l⟩
  · simp at h
  rcases l with _ | ⟨a4, l⟩
  · simp at h
  rcases l with _ | ⟨a5, l⟩
  · simp at h
  rcases l with _ | ⟨a6, l⟩
  · simp at h
  rcases l with _ | ⟨a7, l⟩
  · simp at h
  rcases l with _ | ⟨a8, l⟩
  · simp at h
  rcases l with _ | ⟨a9, l⟩
  · simp at h
  rcases l with _ | ⟨a10, l⟩
  · simp at h
  rcases l with _ | ⟨a11, l⟩
  · simp only [validate_isbn10, ISBN10Spec, nthChar, List.enum, List.enumFrom,
      List.map_cons, List.map_nil, List.sum_cons, List.sum_nil,
      List.getD_cons_zero, List.getD_cons_succ,
      Bool.and_eq_true, Bool.or_eq_true, beq_iff_eq, decide_eq_true_eq]
    ring_nf
    tauto
  · simp at h

/-- The ISBN-13 acceptance property as the specification words it: thirteen
digits, with the weighted sum of the first twelve digits (weight 1 at even
0-based positions, weight 3 at odd positions) reduced modulo 10, and 10
minus that remainder, modulo 10, equal to the thirteenth digit. -/
def ISBN13Spec (s : String) : Prop :=
  ((nthChar s 0).isDigit = true ∧ (nthChar s 1).isDigit = true ∧
    (nthChar s 2).isDigit = true ∧ (nthChar s 3).isDigit = true ∧
    (nthChar s 4).isDigit = true ∧ (nthChar s 5).isDigit = true ∧
    (nthChar s 6).isDigit = true ∧ (nthChar s 7).isDigit = true ∧
    (nthChar s 8).isDigit = true ∧ (nthChar s 9).isDigit = true ∧
    (nthChar s 10).isDigit = true ∧ (nthChar s 11).isDigit = true ∧
    (nthChar s 12).isDigit = true) ∧
  (10 - ((digitVal (nthChar s 0) * 1 + digitVal (nthChar s 1) * 3 +
      digitVal (nthChar s 2) * 1 + digitVal (nthChar s 3) * 3 +
      digitVal (nthChar s 4) * 1 + digitVal (nthChar s 5) * 3 +
      digitVal (nthChar s 6) * 1 + digitVal (nthChar s 7) * 3 +
      digitVal (nthChar s 8) * 1 + digitVal (nthChar s 9) * 3 +
      digitVal (nthChar s 10) * 1 + digitVal (nthChar s 11) * 3) % 10)) % 10 =
    digitVal (nthChar s 12)

theorem validate_isbn13_iff (s : String) (h : s.data.length = 13) :
    validate_isbn13 s = true ↔ ISBN13Spec s := by
  obtain ⟨l⟩ := s
  simp only [String.data] at h ⊢
  rcases l with _ | ⟨a1, l⟩
  · simp at h
  rcases l with _ | ⟨a2, l⟩
  · simp at h
  rcases l with _ | ⟨a3, l⟩
  · simp at h
  rcases l with _ | ⟨a4, l⟩
  · simp at h
  rcases l with _ | ⟨a5, l⟩
  · simp at h
  rcases l with _ | ⟨a6, l⟩
  · simp at h
  rcases l with _ | ⟨a7, l⟩
  · simp at h
  rcases l with _ | ⟨a8, l⟩
  · simp at h
  rcases l with _ | ⟨a9, l⟩
  · simp at h
  rcases l with _ | ⟨a10, l⟩
  · simp at h
  rcases l with _ | ⟨a11, l⟩
  · simp at h
  rcases l with _ | ⟨a12, l⟩
  · simp at h
  rcases l with _ | ⟨a13, l⟩
  · simp at h
  rcases l with _ | ⟨a14, l⟩
  · simp only [validate_isbn13, ISBN13Spec, nthChar, List.enum, List.enumFrom,
      List.map_cons, List.map_nil, List.sum_cons, List.sum_nil,
      List.getD_cons_zero, List.getD_cons_succ,
      Bool.and_eq_true, Bool.or_eq_true, beq_iff_eq, decide_eq_true_eq]
    norm_num
    ring_nf
    tauto
  · simp at h

/-- The first element of the docs list of a response body, when present. -/
def docsHead (body : Json) : Option Json :=
  match body.getKey "docs" with
  | some (.arr (x :: _)) => some x
  | _ => none

/-- The index of the first failing check among the seven response-shape
checks as the claim enumerates them; check 3 there reads: the object has no
docs key.  `none` when every check passes. -/
def claimFirstFailLevel (status : Nat) (body : Json) : Option Nat :=
  if status ≠ 200 then some 1
  else if !body.isObj then some 2
  else
    match body.getKey "docs" with
    | none => some 3
    | some docs =>
      match docs with
      | .arr [] => some 5
      | .arr (first_book :: _) =>
        if !first_book.isObj then some 6
        else if (first_missing_key first_book keys_expected).isSome then some 7
        else none
      | _ => some 4

/-- The index of the first failing check as the code performs the checks:
identical to the claim enumeration except that check 3 also fires when the
docs key is present with value null, because `dict.get` returns `None` in
both cases.  `none` when every check passes. -/
def codeFirstFailLevel (status : Nat) (body : Json) : Option Nat :=
  if status ≠ 200 then some 1
  else if !body.isObj then some 2
  else
    match body.getKey "docs" with
    | none => some 3
    | some .null => some 3
    | some (.arr []) => some 5
    | some (.arr (first_book :: _)) =>
      if !first_book.isObj then some 6
      else if (first_missing_key first_book keys_expected).isSome then some 7
      else none
    | some _ => some 4

theorem validate_response_levels (status : Nat) (body : Json) (isbn api_url : String) :
    (∀ k, codeFirstFailLevel status body = some k →
      (validate_response ⟨status, some body⟩ isbn api_url).bind
        (fun d => d.getKey "level_of_error") = some (.num (Int.ofNat k))) ∧
    (codeFirstFailLevel status body = none →
      validate_response ⟨status, some body⟩ isbn api_url = docsHead body) := by
  by_cases hs : status = 200
  · subst hs
    cases body with
    | obj fields =>
      simp only [codeFirstFailLevel, validate_response, docsHead, Json.isObj,
        Json.getKey, Bool.not_true, Bool.not_false, if_neg, reduceIte]
      norm_num
      cases hdocs : lookupField fields "docs" with
      | none => simp [level3_error, Json.getKey, lookupField]
      | some docs =>
        cases docs with
        | null => simp [level3_error, Json.getKey, lookupField]
        | bool b => simp [level4_error, Json.getKey, lookupField]
        | num n => simp [level4_error, Json.getKey, lookupField]
        | str s => simp [level4_error, Json.getKey, lookupField]
        | obj o => simp [level4_error, Json.getKey, lookupField]
        | arr l =>
          cases l with
          | nil => simp [level5_error, Json.getKey, lookupField]
          | cons first_book rest =>
            cases first_book with
            | obj fbf =>
              cases hmk : first_missing_key (Json.obj fbf) keys_expected with
              | none => simp [hmk]
              | some key => simp [hmk, level7_error, Json.getKey, lookupField]
            | null => simp [level6_error, Json.getKey, lookupField]
            | bool b2 => simp [level6_error, Json.getKey, lookupField]
            | num n2 => simp [level6_error, Json.getKey, lookupField]
            | str s2 => simp [level6_error, Json.getKey, lookupField]
            | arr l2 => simp [level6_error, Json.getKey, lookupField]
    | null => simp [codeFirstFailLevel, validate_response, level2_error, Json.isObj, Json.getKey, lookupField]
    | bool b => simp [codeFirstFailLevel, validate_response, level2_error, Json.isObj, Json.getKey, lookupField]
    | num n => simp [codeFirstFailLevel, validate_response, level2_error, Json.isObj, Json.getKey, lookupField]
    | str s => simp [codeFirstFailLevel, validate_response, level2_error, Json.isObj, Json.getKey, lookupField]
    | arr l => simp [codeFirstFailLevel, validate_response, level2_error, Json.isObj, Json.getKey, lookupField]
  · simp [codeFirstFailLevel, validate_response, hs, level1_error, Json.getKey, lookupField]

theorem build_book_data_fields (first_book : Json) (isbn : String) (d : Json)
    (h : build_book_data first_book isbn = some d) :
    d.getKey "isbn" = some (.str isbn) ∧
    d.getKey "cover_page_url" = some (.str (cover_image_url isbn)) ∧
    d.getKey "error" = none ∧
    d.getKey "title" = some (first_book.getKeyD "title" (.str "Title not available")) := by
  unfold build_book_data at h
  cases ha : pyIndex0 (first_book.getKeyD "author_name" (.arr [.str "Author not available"])) with
  | none => simp [ha] at h
  | some author_name =>
    cases hp : pyIndex0 (first_book.getKeyD "publisher" (.arr [.str "Publisher not available"])) with
    | none => simp [ha, hp] at h
    | some publisher =>
      cases hl : pyIndex0 (first_book.getKeyD "language" (.arr [.str "Language not available"])) with
      | none => simp [ha, hp, hl] at h
      | some language =>
        simp only [ha, hp, hl, Option.some.injEq] at h
        subst h
        refine ⟨rfl, rfl, rfl, rfl⟩

theorem fetch_book_data_success (lookup : String → HttpResponse) (isbn : String) (d : Json)
    (h : fetch_book_data lookup isbn = some d) (he : d.getKey "error" = none) :
    ∃ first_book,
      validate_response (lookup (api_url_for isbn)) isbn (api_url_for isbn) = some first_book ∧
      build_book_data first_book isbn = some d := by
  simp only [fetch_book_data] at h
  cases hv : validate_response (lookup (api_url_for isbn)) isbn (api_url_for isbn) with
  | none => simp only [hv] at h; exact absurd h (by simp)
  | some first_book =>
    simp only [hv] at h
    by_cases herr : (first_book.getKey "error").isSome = true
    · simp only [herr, if_true] at h
      obtain rfl : first_book = d := Option.some.inj h
      rw [Option.isSome_iff_ne_none] at herr
      exact absurd he herr
    · simp only [herr, if_false, Bool.false_eq_true] at h
      exact ⟨first_book, rfl, h⟩

/-- C1, counterexample.  The claim asserts that `validate_response` always
returns the level of the first failing check of the seven checks as the
claim enumerates them, check 3 being: no docs key.  On a 200 response with
body having the docs key present but bound to null, the first failing check
in that enumeration is check 4 (docs is not a list), yet the code returns
level 3, because `dict.get` collapses an absent key and a null value. -/
theorem C1_counterexample :
    (validate_response ⟨200, some (.obj [("docs", Json.null)])⟩ "i" "u").bind
        (fun d => d.getKey "level_of_error") = some (.num 3) ∧
    claimFirstFailLevel 200 (.obj [("docs", Json.null)]) = some 4 :=
  ⟨rfl, rfl⟩

/-- C1, amended.  For every response with a parseable JSON body,
`validate_response` returns the diagnostic whose `level_of_error` is the
index of the first failing check in code order — where check 3 fires when
the docs key is absent or bound to null — and returns the first element of
docs when every check passes; a 200 response with body docs bound to the
empty list yields level 5, and a first doc missing only language yields
level 7 with a diagnostic naming language. -/
theorem C1_first_failing_level :
    (∀ status body isbn api_url k, codeFirstFailLevel status body = some k →
      (validate_response ⟨status, some body⟩ isbn api_url).bind
        (fun d => d.getKey "level_of_error") = some (.num (Int.ofNat k))) ∧
    (∀ status body isbn api_url, codeFirstFailLevel status body = none →
      validate_response ⟨status, some body⟩ isbn api_url = docsHead body) ∧
    validate_response ⟨200, some (.obj [("docs", .arr [])])⟩ "i" "u" =
      some (level5_error "i" "u") ∧
    (level5_error "i" "u").getKey "level_of_error" = some (.num 5) ∧
    validate_response ⟨200, some (.obj [("docs", .arr [.obj [("title", .str "T"),
        ("author_name", .arr [.str "A"]), ("publisher", .arr [.str "P"])]])])⟩ "i" "u" =
      some (level7_error "language" "i" "u") ∧
    (level7_error "language" "i" "u").getKey "level_of_error" = some (.num 7) ∧
    (level7_error "language" "i" "u").getKey "error_details" =
      some (.str "The key \x27language\x27 is either not present or has an empty value.") :=
  ⟨fun status body isbn api_url => (validate_response_levels status body isbn api_url).1,
   fun status body isbn api_url => (validate_response_levels status body isbn api_url).2,
   rfl, rfl, rfl, rfl, rfl⟩

/-- C1, witness for the amended characterization at a concrete response. -/
theorem C1_first_failing_level_witness :
    codeFirstFailLevel 404 (.obj []) = some 1 ∧
    (validate_response ⟨404, some (.obj [])⟩ "i" "u").bind
      (fun d => d.getKey "level_of_error") = some (.num (Int.ofNat 1)) :=
  ⟨rfl, C1_first_failing_level.1 404 (.obj []) "i" "u" 1 rfl⟩

/-- C2: for every input whose stripped form has length 10, `validate_isbn`
accepts exactly the strings satisfying the ISBN-10 rule of the claim, and
the two concrete examples of the claim hold. -/
theorem C2_isbn10_characterization :
    (∀ s : String, (clean_isbn s).length = 10 →
      (validate_isbn s = true ↔ ISBN10Spec (clean_isbn s))) ∧
    validate_isbn "0306406152" = true ∧
    validate_isbn "0306406153" = false := by
  refine ⟨fun s h => ?_, by decide, by decide⟩
  have heq : validate_isbn s = validate_isbn10 (clean_isbn s) := by
    simp [validate_isbn, h]
  rw [heq]
  exact validate_isbn10_iff _ h

/-- C2, witness at the valid ISBN-10 of the claim. -/
theorem C2_isbn10_characterization_witness :
    (clean_isbn "0306406152").length = 10 ∧
    (validate_isbn "0306406152" = true ↔ ISBN10Spec (clean_isbn "0306406152")) :=
  ⟨by decide, C2_isbn10_characterization.1 "0306406152" (by decide)⟩

/-- C3: for every input whose stripped form has length 13, `validate_isbn`
accepts exactly the strings satisfying the ISBN-13 rule of the claim; for
every input whose stripped length is neither 10 nor 13 it returns false;
and the concrete length-13, length-12 and length-14 examples hold. -/
theorem C3_isbn13_characterization :
    (∀ s : String, (clean_isbn s).length = 13 →
      (validate_isbn s = true ↔ ISBN13Spec (clean_isbn s))) ∧
    (∀ s : String, (clean_isbn s).length ≠ 10 → (clean_isbn s).length ≠ 13 →
      validate_isbn s = false) ∧
    validate_isbn "9780306406157" = true ∧
    validate_isbn "978030640615" = false ∧
    validate_isbn "97803064061570" = false := by
  refine ⟨fun s h => ?_, fun s h10 h13 => ?_, by decide, by decide, by decide⟩
  · have heq : validate_isbn s = validate_isbn13 (clean_isbn s) := by
      simp [validate_isbn, h]
    rw [heq]
    exact validate_isbn13_iff _ h
  · simp [validate_isbn, h10, h13]

/-- C3, witness at the valid ISBN-13 of the claim and a length-12 input. -/
theorem C3_isbn13_characterization_witness :
    ((clean_isbn "9780306406157").length = 13 ∧
      (validate_isbn "9780306406157" = true ↔ ISBN13Spec (clean_isbn "9780306406157"))) ∧
    ((clean_isbn "978030640615").length ≠ 10 ∧ (clean_isbn "978030640615").length ≠ 13 ∧
      validate_isbn "978030640615" = false) :=
  ⟨⟨by decide, C3_isbn13_characterization.1 "9780306406157" (by decide)⟩,
   ⟨by decide, by decide, C3_isbn13_characterization.2.1 "978030640615" (by decide) (by decide)⟩⟩

theorem validate_response_parseable_total (status : Nat) (j : Json) (i u : String) :
    (validate_response ⟨status, some j⟩ i u).isSome = true := by
  by_cases hs : status = 200
  · subst hs
    cases j with
    | obj fields =>
      simp only [validate_response, Json.getKey, Json.isObj]
      norm_num
      cases lookupField fields "docs" with
      | none => rfl
      | some docs =>
        cases docs with
        | null => rfl
        | bool b => rfl
        | num n => rfl
        | str s => rfl
        | obj o => rfl
        | arr l =>
          cases l with
          | nil => rfl
          | cons fb rest =>
            cases fb with
            | obj fbf =>
              cases hm : first_missing_key (Json.obj fbf) keys_expected with
              | none => simp [hm]
              | some key => simp [hm]
            | null => rfl
            | bool b => rfl
            | num n => rfl
            | str s => rfl
            | arr l2 => rfl
    | null => rfl
    | bool b => rfl
    | num n => rfl
    | str s => rfl
    | arr l => rfl
  · simp [validate_response, hs]

/-- C4, counterexample.  The claim asserts the pipeline never surfaces a raw
exception and that a 200 response with an unparseable body yields the
level-2 diagnostic; on such a response `response.json()` raises an
unhandled `JSONDecodeError` (embedded as the `none` outcome), so
`fetch_book_data` surfaces the exception instead of a diagnostic. -/
theorem C4_counterexample :
    fetch_book_data (fun _ => ⟨200, none⟩) "0306406152" = none := rfl

/-- C4, amended.  On every response whose body parses as JSON the normalizer
returns a structured dictionary (and likewise on every non-200 response,
whose body is never read); a 200 response with a parseable non-object body
yields exactly the level-2 diagnostic; and every diagnostic outcome of the
normalizer is passed through by `fetch_book_data` as the discriminated
error result.  Only a 200 response whose body fails to parse escapes as a
raw exception (see the counterexample), besides an exception from the
extraction subscriptions. -/
theorem C4_discriminated_outcome :
    (∀ (status : Nat) (j : Json) (i u : String),
      (validate_response ⟨status, some j⟩ i u).isSome = true) ∧
    (∀ (status : Nat) (i u : String), status ≠ 200 →
      (validate_response ⟨status, none⟩ i u).isSome = true) ∧
    (∀ (j : Json) (i u : String), j.isObj = false →
      (validate_response ⟨200, some j⟩ i u).bind (fun d => d.getKey "level_of_error") =
        some (.num 2)) ∧
    (∀ (lookup : String → HttpResponse) (isbn : String) (d : Json),
      validate_response (lookup (api_url_for isbn)) isbn (api_url_for isbn) = some d →
      (d.getKey "error").isSome = true →
      fetch_book_data lookup isbn = some d) := by
  refine ⟨validate_response_parseable_total, fun status i u h => ?_, fun j i u h => ?_,
    fun lookup isbn d hv herr => ?_⟩
  · simp [validate_response, h]
  · cases j with
    | obj fields => simp [Json.isObj] at h
    | null => rfl
    | bool b => rfl
    | num n => rfl
    | str s => rfl
    | arr l => rfl
  · simp only [fetch_book_data, hv, herr, if_true]

/-- C4, witness for the amended statement at concrete responses. -/
theorem C4_discriminated_outcome_witness :
    (validate_response ⟨200, some (.arr [])⟩ "i" "u").isSome = true ∧
    (404 ≠ 200 ∧ (validate_response ⟨404, none⟩ "i" "u").isSome = true) ∧
    ((Json.arr []).isObj = false ∧
      (validate_response ⟨200, some (.arr [])⟩ "i" "u").bind
        (fun d => d.getKey "level_of_error") = some (.num 2)) ∧
    (validate_response ((fun _ => (⟨404, none⟩ : HttpResponse)) (api_url_for "z")) "z"
        (api_url_for "z") = some (level1_error 404 "z" (api_url_for "z")) ∧
      ((level1_error 404 "z" (api_url_for "z")).getKey "error").isSome = true ∧
      fetch_book_data (fun _ => ⟨404, none⟩) "z" = some (level1_error 404 "z" (api_url_for "z"))) :=
  ⟨C4_discriminated_outcome.1 200 (.arr []) "i" "u",
   ⟨by decide, C4_discriminated_outcome.2.1 404 "i" "u" (by decide)⟩,
   ⟨rfl, C4_discriminated_outcome.2.2.1 (.arr []) "i" "u" rfl⟩,
   ⟨rfl, rfl, C4_discriminated_outcome.2.2.2 (fun _ => ⟨404, none⟩) "z"
      (level1_error 404 "z" (api_url_for "z")) rfl rfl⟩⟩

/-- C5: when the ISBN fails validation, the GET detail view and the POST
create view return the 400 client-side diagnostic with level 0, tagged with
the request type and the offending ISBN, issue no outbound request, and
leave the store unchanged. -/
theorem C5_invalid_isbn_short_circuits :
    ∀ (lookup : String → HttpResponse) (store : List Json) (isbn : String),
      validate_isbn isbn = false →
        ISBNDetailView_get lookup isbn =
          ⟨some ⟨400, isbn_invalidation_error_response isbn "get"⟩, 0⟩ ∧
        BookListView_post lookup store isbn =
          ⟨some ⟨400, isbn_invalidation_error_response isbn "post"⟩, 0, store⟩ ∧
        (isbn_invalidation_error_response isbn "get").getKey "level_of_error" =
          some (.num 0) ∧
        (isbn_invalidation_error_response isbn "get").getKey "issue_with_isbn" =
          some (.str isbn) ∧
        (isbn_invalidation_error_response isbn "get").getKey "type_of_request" =
          some (.str "get") ∧
        (isbn_invalidation_error_response isbn "post").getKey "type_of_request" =
          some (.str "post") := by
  intro lookup store isbn h
  refine ⟨?_, ?_, rfl, rfl, rfl, rfl⟩
  · simp [ISBNDetailView_get, h]
  · simp [BookListView_post, h]

/-- C5, witness at the malformed ISBN 123. -/
theorem C5_invalid_isbn_short_circuits_witness :
    validate_isbn "123" = false ∧
    (ISBNDetailView_get (fun _ => ⟨200, none⟩) "123" =
        ⟨some ⟨400, isbn_invalidation_error_response "123" "get"⟩, 0⟩ ∧
      BookListView_post (fun _ => ⟨200, none⟩) [] "123" =
        ⟨some ⟨400, isbn_invalidation_error_response "123" "post"⟩, 0, []⟩ ∧
      (isbn_invalidation_error_response "123" "get").getKey "level_of_error" =
        some (.num 0) ∧
      (isbn_invalidation_error_response "123" "get").getKey "issue_with_isbn" =
        some (.str "123") ∧
      (isbn_invalidation_error_response "123" "get").getKey "type_of_request" =
        some (.str "get") ∧
      (isbn_invalidation_error_response "123" "post").getKey "type_of_request" =
        some (.str "post")) :=
  ⟨by decide, C5_invalid_isbn_short_circuits (fun _ => ⟨200, none⟩) [] "123" (by decide)⟩

/-- C6: whenever `fetch_book_data` builds a book record (its result carries
no error key), the cover page URL field is exactly the string templated
from the input ISBN alone — independent of the external payload, over which
the statement quantifies — and the isbn field is the input ISBN. -/
theorem C6_cover_url_from_isbn :
    ∀ (lookup : String → HttpResponse) (isbn : String) (d : Json),
      fetch_book_data lookup isbn = some d → d.getKey "error" = none →
        d.getKey "cover_page_url" =
          some (.str ("https://covers.openlibrary.org/b/isbn/" ++ isbn ++ "-L.jpg")) ∧
        d.getKey "isbn" = some (.str isbn) := by
  intro lookup isbn d h he
  obtain ⟨fb, hv, hb⟩ := fetch_book_data_success lookup isbn d h he
  obtain ⟨hisbn, hcover, -, -⟩ := build_book_data_fields fb isbn d hb
  exact ⟨hcover, hisbn⟩

/-- C6, witness on a well-formed single-doc 200 response. -/
theorem C6_cover_url_from_isbn_witness :
    fetch_book_data (fun _ => ⟨200, some (.obj [("docs", .arr [.obj [("title", .str "T"),
        ("author_name", .arr [.str "A"]), ("publisher", .arr [.str "P"]),
        ("language", .arr [.str "eng"])]])])⟩) "0306406152" =
      some (.obj [("title", .str "T"), ("author", .str "A"), ("isbn", .str "0306406152"),
        ("cover_page_url", .str "https://covers.openlibrary.org/b/isbn/0306406152-L.jpg"),
        ("language", .str "eng"), ("publisher", .str "P")]) ∧
    (Json.obj [("title", .str "T"), ("author", .str "A"), ("isbn", .str "0306406152"),
        ("cover_page_url", .str "https://covers.openlibrary.org/b/isbn/0306406152-L.jpg"),
        ("language", .str "eng"), ("publisher", .str "P")]).getKey "error" = none ∧
    ((Json.obj [("title", .str "T"), ("author", .str "A"), ("isbn", .str "0306406152"),
        ("cover_page_url", .str "https://covers.openlibrary.org/b/isbn/0306406152-L.jpg"),
        ("language", .str "eng"), ("publisher", .str "P")]).getKey "cover_page_url" =
        some (.str ("https://covers.openlibrary.org/b/isbn/" ++ "0306406152" ++ "-L.jpg")) ∧
      (Json.obj [("title", .str "T"), ("author", .str "A"), ("isbn", .str "0306406152"),
        ("cover_page_url", .str "https://covers.openlibrary.org/b/isbn/0306406152-L.jpg"),
        ("language", .str "eng"), ("publisher", .str "P")]).getKey "isbn" =
        some (.str "0306406152")) :=
  ⟨rfl, rfl,
   C6_cover_url_from_isbn (fun _ => ⟨200, some (.obj [("docs", .arr [.obj [("title", .str "T"),
      ("author_name", .arr [.str "A"]), ("publisher", .arr [.str "P"]),
      ("language", .arr [.str "eng"])]])])⟩) "0306406152" _ rfl rfl⟩


theorem post_insert_validated :
    ∀ (lookup : String → HttpResponse) (store : List Json) (isbn : String) (r : Json),
      (BookListView_post lookup store isbn).store = store ++ [r] →
        r.getKey "isbn" = some (.str isbn) ∧ validate_isbn isbn = true := by
  intro lookup store isbn r h
  simp only [BookListView_post] at h
  split at h
  · exact absurd (congrArg List.length h) (by simp)
  · rename_i hval
    have hv : validate_isbn isbn = true := by
      by_cases hb : validate_isbn isbn = true
      · exact hb
      · exact absurd (by simp [hb]) hval
    split at h
    · exact absurd (congrArg List.length h) (by simp)
    · rename_i u hf
      split at h
      · exact absurd (congrArg List.length h) (by simp)
      · rename_i herr
        split at h
        · rename_i hser
          have hur : u = r := by
            have h2 := List.append_cancel_left h
            simpa using h2
          have he : u.getKey "error" = none := by
            cases ho : u.getKey "error" with
            | none => rfl
            | some v => rw [ho] at herr; simp at herr
          obtain ⟨fb, -, hb⟩ := fetch_book_data_success lookup isbn u hf he
          obtain ⟨hisbn, -, -, -⟩ := build_book_data_fields fb isbn u hb
          exact ⟨by rw [← hur]; exact hisbn, hv⟩
        · exact absurd (congrArg List.length h) (by simp)

theorem add_insert_validated :
    ∀ (lookup : String → HttpResponse) (store : List Json) (isbn : String) (r : Json),
      (add_book_to_library lookup store isbn).store = store ++ [r] →
        r.getKey "error" = none →
        r.getKey "isbn" = some (.str isbn) ∧ validate_isbn isbn = true := by
  intro lookup store isbn r h he
  simp only [add_book_to_library] at h
  split at h
  · exact absurd (congrArg List.length h) (by simp)
  · rename_i hval
    have hv : validate_isbn isbn = true := by
      by_cases hb : validate_isbn isbn = true
      · exact hb
      · exact absurd (by simp [hb]) hval
    split at h
    · exact absurd (congrArg List.length h) (by simp)
    · rename_i u hf
      split at h
      · rename_i hser
        have hur : u = r := by
          have h2 := List.append_cancel_left h
          simpa using h2
        have he2 : u.getKey "error" = none := by rw [hur]; exact he
        obtain ⟨fb, -, hb⟩ := fetch_book_data_success lookup isbn u hf he2
        obtain ⟨hisbn, -, -, -⟩ := build_book_data_fields fb isbn u hb
        exact ⟨by rw [← hur]; exact hisbn, hv⟩
      · exact absurd (congrArg List.length h) (by simp)

/-- C7, counterexample.  The claim says no code path inserts a record whose
isbn was not validated.  `add_book_to_library` hands the result of
`fetch_book_data` to the serializer without testing for an error key: when
the external doc passes the seven checks but itself carries an error key
together with serializer-acceptable fields, the doc is passed through and
saved verbatim — here with the isbn field 1234, which fails validation. -/
theorem C7_counterexample :
    (add_book_to_library
        (fun _ => ⟨200, some (.obj [("docs", .arr [.obj [("error", .str "boom"),
          ("title", .str "T"), ("author", .str "B"), ("author_name", .str "A"),
          ("publisher", .str "P"), ("language", .str "en"), ("isbn", .str "1234")]])])⟩)
        [] "0306406152").store =
      [.obj [("error", .str "boom"), ("title", .str "T"), ("author", .str "B"),
        ("author_name", .str "A"), ("publisher", .str "P"), ("language", .str "en"),
        ("isbn", .str "1234")]] ∧
    (Json.obj [("error", .str "boom"), ("title", .str "T"), ("author", .str "B"),
        ("author_name", .str "A"), ("publisher", .str "P"), ("language", .str "en"),
        ("isbn", .str "1234")]).getKey "isbn" = some (.str "1234") ∧
    validate_isbn "1234" = false :=
  ⟨rfl, rfl, by decide⟩

/-- C7, amended.  Every record inserted by `BookListView.post` carries the
validated input ISBN, and so does every record inserted by
`add_book_to_library` that does not carry an error key; the error-key
passthrough of `add_book_to_library` is the one exception (see the
counterexample). -/
theorem C7_store_isbn_validated :
    (∀ (lookup : String → HttpResponse) (store : List Json) (isbn : String) (r : Json),
      (BookListView_post lookup store isbn).store = store ++ [r] →
        r.getKey "isbn" = some (.str isbn) ∧ validate_isbn isbn = true) ∧
    (∀ (lookup : String → HttpResponse) (store : List Json) (isbn : String) (r : Json),
      (add_book_to_library lookup store isbn).store = store ++ [r] →
        r.getKey "error" = none →
        r.getKey "isbn" = some (.str isbn) ∧ validate_isbn isbn = true) :=
  ⟨post_insert_validated, add_insert_validated⟩

/-- C7, witness for the amended statement: a successful POST insert carries
the validated input ISBN. -/
theorem C7_store_isbn_validated_witness :
    (BookListView_post (fun _ => ⟨200, some (.obj [("docs", .arr [.obj [("title", .str "T"),
        ("author_name", .arr [.str "A"]), ("publisher", .arr [.str "P"]),
        ("language", .arr [.str "eng"])]])])⟩) [] "0306406152").store =
      [] ++ [.obj [("title", .str "T"), ("author", .str "A"), ("isbn", .str "0306406152"),
        ("cover_page_url", .str "https://covers.openlibrary.org/b/isbn/0306406152-L.jpg"),
        ("language", .str "eng"), ("publisher", .str "P")]] ∧
    ((Json.obj [("title", .str "T"), ("author", .str "A"), ("isbn", .str "0306406152"),
        ("cover_page_url", .str "https://covers.openlibrary.org/b/isbn/0306406152-L.jpg"),
        ("language", .str "eng"), ("publisher", .str "P")]).getKey "isbn" =
        some (.str "0306406152") ∧
      validate_isbn "0306406152" = true) :=
  ⟨rfl, C7_store_isbn_validated.1 (fun _ => ⟨200, some (.obj [("docs", .arr [.obj
      [("title", .str "T"), ("author_name", .arr [.str "A"]), ("publisher", .arr [.str "P"]),
      ("language", .arr [.str "eng"])]])])⟩) [] "0306406152" _ rfl⟩

/-- C8, counterexample.  With two records in the store — the second inserted
after the first — the listing endpoint `BookListView.get` returns them in
insertion order, oldest first, which differs from the claimed
most-recently-inserted-first order. -/
theorem C8_counterexample :
    BookListView_get [.str "older", .str "newer"] =
      ⟨200, .arr [.str "older", .str "newer"]⟩ ∧
    Json.arr [.str "older", .str "newer"] ≠ Json.arr [.str "newer", .str "older"] :=
  ⟨rfl, by simp⟩

/-- C8, amended.  The listing endpoint returns all persisted records with a
200 status in insertion order (oldest first, as `Book.objects.all()` has no
ordering clause); it is the index page book list, ordered by descending
primary key, that puts the most recently inserted record first. -/
theorem C8_listing_order :
    (∀ store : List Json, BookListView_get store = ⟨200, .arr store⟩) ∧
    (∀ (store : List Json) (r : Json),
      BookListView_get (store ++ [r]) = ⟨200, .arr (store ++ [r])⟩ ∧
      index_book_list (store ++ [r]) = r :: index_book_list store) := by
  refine ⟨fun store => rfl, fun store r => ⟨rfl, ?_⟩⟩
  simp [index_book_list]

/-- C9: a 200 response passing all seven shape checks whose first doc itself
carries a truthy error key makes `fetch_book_data` return that doc
unchanged, and the GET view then treats it as a server-side error, mapping
it to a 500 response with the request-type and error-type tags appended. -/
theorem C9_error_doc_passthrough :
    fetch_book_data (fun _ => ⟨200, some (.obj [("docs", .arr [.obj [("error", .str "boom"),
        ("title", .str "T"), ("author_name", .arr [.str "A"]), ("publisher", .arr [.str "P"]),
        ("language", .arr [.str "en"])]])])⟩) "0306406152" =
      some (.obj [("error", .str "boom"), ("title", .str "T"),
        ("author_name", .arr [.str "A"]), ("publisher", .arr [.str "P"]),
        ("language", .arr [.str "en"])]) ∧
    (Json.obj [("error", .str "boom"), ("title", .str "T"),
        ("author_name", .arr [.str "A"]), ("publisher", .arr [.str "P"]),
        ("language", .arr [.str "en"])]).getKey "error" = some (.str "boom") ∧
    (Json.str "boom").truthy = true ∧
    (ISBNDetailView_get (fun _ => ⟨200, some (.obj [("docs", .arr [.obj
        [("error", .str "boom"), ("title", .str "T"), ("author_name", .arr [.str "A"]),
        ("publisher", .arr [.str "P"]), ("language", .arr [.str "en"])]])])⟩)
        "0306406152").outcome =
      some ⟨500, .obj [("error", .str "boom"), ("title", .str "T"),
        ("author_name", .arr [.str "A"]), ("publisher", .arr [.str "P"]),
        ("language", .arr [.str "en"]), ("type_of_request", .str "get"),
        ("type_of_error", .str "internal_server_error")]⟩ :=
  ⟨rfl, rfl, rfl, rfl⟩

theorem first_missing_key_none (fb : Json) :
    ∀ keys : List String, first_missing_key fb keys = none →
      ∀ k ∈ keys, (fb.getKey k).isSome = true := by
  intro keys
  induction keys with
  | nil => intro h k hk; simp at hk
  | cons key rest ih =>
    intro h k hk
    by_cases hc : key_missing_or_falsy fb key = true
    · simp [first_missing_key, hc] at h
    · simp only [first_missing_key, hc, Bool.false_eq_true, if_false] at h
      rcases List.mem_cons.mp hk with rfl | hk2
      · unfold key_missing_or_falsy at hc
        cases hg : fb.getKey k with
        | none => rw [hg] at hc; simp at hc
        | some v => simp
      · exact ih h k hk2

/-- C10: on a doc passing all seven checks whose author name, publisher and
language are non-empty strings rather than lists, the built record fields
are the first characters of those strings while title is used verbatim;
after the level-7 check passes every required key is present, and the
coalescing defaults are used only for an absent key — hence never on a doc
that passed check 7. -/
theorem C10_field_extraction :
    fetch_book_data (fun _ => ⟨200, some (.obj [("docs", .arr [.obj [("title", .str "T"),
        ("author_name", .str "Alice"), ("publisher", .str "Pub"),
        ("language", .str "eng")]])])⟩) "0306406152" =
      some (.obj [("title", .str "T"), ("author", .str "A"), ("isbn", .str "0306406152"),
        ("cover_page_url", .str "https://covers.openlibrary.org/b/isbn/0306406152-L.jpg"),
        ("language", .str "e"), ("publisher", .str "P")]) ∧
    (∀ fb : Json, first_missing_key fb keys_expected = none →
      ∀ k ∈ keys_expected, (fb.getKey k).isSome = true) ∧
    (∀ (fb : Json) (k : String) (v d : Json), fb.getKey k = some v → fb.getKeyD k d = v) := by
  refine ⟨rfl, fun fb h => first_missing_key_none fb keys_expected h, fun fb k v d h => ?_⟩
  simp [Json.getKeyD, h]

/-- C10, witness: the required keys of a doc that passed check 7 are all
present. -/
theorem C10_field_extraction_witness :
    first_missing_key (Json.obj [("title", .str "T"), ("author_name", .str "Alice"),
        ("publisher", .str "Pub"), ("language", .str "eng")]) keys_expected = none ∧
    ((Json.obj [("title", .str "T"), ("author_name", .str "Alice"), ("publisher", .str "Pub"),
        ("language", .str "eng")]).getKey "language").isSome = true :=
  ⟨rfl, C10_field_extraction.2.1 (Json.obj [("title", .str "T"), ("author_name", .str "Alice"),
      ("publisher", .str "Pub"), ("language", .str "eng")]) rfl "language" (by decide)⟩
